import Mathlib

/-!
Verification of the mass-rmv-appointment-sniper pipeline (browse.py, alert.py).

The Python sources are shallowly embedded: file and browser I/O become
explicit parameters (the time window, the blacklist file contents, the page
DOM as record lists), `datetime.strptime`/`strftime` become executable
parsers/formatters on character lists, exceptions become `Except`/`Option`,
and dict-valued state becomes association lists in insertion order (Python
dicts preserve insertion order).
-/

namespace MassRMV

/-- One scanned decimal-digit run: take up to `n` leading digits, mirroring a
greedy regex `\d{1,n}` fragment of CPython strptime. -/
def takeDigitsUpTo : Nat → List Char → List Char × List Char
  | 0, cs => ([], cs)
  | _ + 1, [] => ([], [])
  | n + 1, c :: cs =>
    if c.isDigit then
      let p := takeDigitsUpTo n cs
      (c :: p.1, p.2)
    else ([], c :: cs)

/-- Numeric value of a digit run. -/
def digitsToNat (ds : List Char) : Nat :=
  ds.foldl (fun a c => a * 10 + (c.toNat - '0'.toNat)) 0

/-- Scan a `\d{lo,hi}` field (greedy, as in CPython strptime's regexes). -/
def parseNum (lo hi : Nat) (cs : List Char) : Option (Nat × List Char) :=
  let p := takeDigitsUpTo hi cs
  if lo ≤ p.1.length then some (digitsToNat p.1, p.2) else none

/-- Drop leading whitespace characters. -/
def dropWs : List Char → List Char
  | [] => []
  | c :: cs => if c.isWhitespace then dropWs cs else c :: cs

/-- Match the `\s+` that CPython strptime substitutes for whitespace in a
format string: at least one whitespace character, greedily consumed. -/
def skipWs1 : List Char → Option (List Char)
  | [] => none
  | c :: cs => if c.isWhitespace then some (dropWs cs) else none

/-- Match one literal character of a format string. -/
def expectChar (c : Char) : List Char → Option (List Char)
  | [] => none
  | x :: xs => if x = c then some xs else none

/-- Take the first `n` characters. -/
def takeN : Nat → List Char → List Char × List Char
  | 0, cs => ([], cs)
  | _ + 1, [] => ([], [])
  | n + 1, c :: cs =>
    let p := takeN n cs
    (c :: p.1, p.2)

/-- Calendar date as carried by Python `datetime` values in the scripts
(the scripts only ever compare midnight datetimes, so the time part is
irrelevant). -/
structure Date where
  y : Nat
  m : Nat
  d : Nat
deriving DecidableEq, Repr

/-- Python `datetime` comparison `a <= b`, lexicographic on (year, month, day). -/
def Date.ble (a b : Date) : Bool :=
  decide (a.y < b.y) ||
    (decide (a.y = b.y) &&
      (decide (a.m < b.m) || (decide (a.m = b.m) && decide (a.d ≤ b.d))))

/-- Python `datetime` comparison `a < b`, lexicographic on (year, month, day). -/
def Date.blt (a b : Date) : Bool :=
  decide (a.y < b.y) ||
    (decide (a.y = b.y) &&
      (decide (a.m < b.m) || (decide (a.m = b.m) && decide (a.d < b.d))))

/-- Gregorian leap-year test, as in Python's `calendar`/`datetime`. -/
def isLeap (y : Nat) : Bool :=
  y % 4 = 0 && (y % 100 ≠ 0 || y % 400 = 0)

/-- Days in a month, as validated by Python's `datetime` constructor. -/
def daysInMonth (y m : Nat) : Nat :=
  if m = 2 then (if isLeap y then 29 else 28)
  else if m = 4 ∨ m = 6 ∨ m = 9 ∨ m = 11 then 30
  else 31

/-- The `datetime.date` constructor's range validation, applied by strptime
after its regex match succeeds. -/
def mkValidDate (y m d : Nat) : Option Date :=
  if 1 ≤ y ∧ y ≤ 9999 ∧ 1 ≤ m ∧ m ≤ 12 ∧ 1 ≤ d ∧ d ≤ daysInMonth y m then
    some ⟨y, m, d⟩
  else none

/-- Regex phase of `datetime.strptime(s, "%Y-%m-%d")`: four-digit year,
literal dash, one-or-two-digit month, literal dash, one-or-two-digit day,
and no trailing input (strptime raises on unconverted data). -/
def rawISODate (cs : List Char) : Option (Nat × Nat × Nat) :=
  (parseNum 4 4 cs).bind fun py =>
  (expectChar '-' py.2).bind fun r2 =>
  (parseNum 1 2 r2).bind fun pm =>
  (expectChar '-' pm.2).bind fun r4 =>
  (parseNum 1 2 r4).bind fun pd =>
  if pd.2 = [] then some (py.1, pm.1, pd.1) else none

/-- Embedding of `datetime.strptime(s, "%Y-%m-%d")`, returning `none` where Python raises
`ValueError`. -/
def parseDateISO (s : String) : Option Date :=
  (rawISODate s.toList).bind fun t => mkValidDate t.1 t.2.1 t.2.2

/-- Lowercase three-letter month abbreviations recognized by strptime `%b`
(matched case-insensitively). -/
def monthAbbrevs : List String :=
  ["jan", "feb", "mar", "apr", "may", "jun",
   "jul", "aug", "sep", "oct", "nov", "dec"]

/-- Match strptime `%b`: a three-letter month abbreviation, case-insensitive. -/
def matchMonthAbbrev (cs : List Char) : Option (Nat × List Char) :=
  let p := takeN 3 cs
  let name := String.mk (p.1.map Char.toLower)
  let idx := monthAbbrevs.indexOf name
  if idx < 12 then some (idx + 1, p.2) else none

/-- Regex phase of `datetime.strptime(s, "%b %d, %Y")` (month abbreviation,
whitespace, day, comma, whitespace, four-digit year, no trailing input),
returning `(y, m, d)`. -/
def rawMDYDate (cs : List Char) : Option (Nat × Nat × Nat) :=
  (matchMonthAbbrev cs).bind fun pm =>
  (skipWs1 pm.2).bind fun r2 =>
  (parseNum 1 2 r2).bind fun pd =>
  (expectChar ',' pd.2).bind fun r4 =>
  (skipWs1 r4).bind fun r5 =>
  (parseNum 4 4 r5).bind fun py =>
  if py.2 = [] then some (py.1, pm.1, pd.1) else none

/-- Embedding of `datetime.strptime(s, "%b %d, %Y")`, returning `none` where Python raises
`ValueError`. -/
def parseDateMDY (s : String) : Option Date :=
  (rawMDYDate s.toList).bind fun t => mkValidDate t.1 t.2.1 t.2.2

/-- Match strptime `%p`: `AM`/`PM`, case-insensitive; `true` means PM. -/
def matchAmPm (cs : List Char) : Option (Bool × List Char) :=
  let p := takeN 2 cs
  let low := String.mk (p.1.map Char.toLower)
  if low = "am" then some (false, p.2)
  else if low = "pm" then some (true, p.2)
  else none

/-- Regex phase of the `%m/%d/%Y ` head of the machine-time format:
month, slash, day, slash, four-digit year, whitespace. Returns
`(month, day, year, remaining input)`. -/
def rawMachineDate (cs : List Char) : Option (Nat × Nat × Nat × List Char) :=
  (parseNum 1 2 cs).bind fun pmo =>
  (expectChar '/' pmo.2).bind fun r2 =>
  (parseNum 1 2 r2).bind fun pdy =>
  (expectChar '/' pdy.2).bind fun r4 =>
  (parseNum 4 4 r4).bind fun pyr =>
  (skipWs1 pyr.2).map fun r6 =>
  (pmo.1, pdy.1, pyr.1, r6)

/-- Match strptime `%I`: CPython's regex for the 12-hour field is the
alternation `(1[0-2]|0[1-9]|[1-9])`. Followed by a literal colon (as in
the machine-time format), it admits exactly the hour tokens with value
1-12 in at most two digits: `"00"`, a bare `"0"`, and two-digit tokens
above 12 all fail the whole match (the one-digit fallback leaves a digit
where the colon must be), raising `ValueError`. -/
def parseHour12 (cs : List Char) : Option (Nat × List Char) :=
  (parseNum 1 2 cs).bind fun ph =>
  if 1 ≤ ph.1 ∧ ph.1 ≤ 12 then some ph else none

/-- Regex phase of the `%I:%M:%S %p` tail of the machine-time format:
12-hour field (value 1-12, see `parseHour12`), colon, minute, colon,
second, whitespace, AM/PM marker, end of input (strptime raises on
unconverted trailing data). Returns `(hour12, minute, second, pm)`. -/
def rawMachineClock (cs : List Char) : Option (Nat × Nat × Nat × Bool) :=
  (parseHour12 cs).bind fun ph =>
  (expectChar ':' ph.2).bind fun r8 =>
  (parseNum 1 2 r8).bind fun pmi =>
  (expectChar ':' pmi.2).bind fun r10 =>
  (parseNum 1 2 r10).bind fun pse =>
  (skipWs1 pse.2).bind fun r12 =>
  (matchAmPm r12).bind fun pap =>
  if pap.2 = [] then some (ph.1, pmi.1, pse.1, pap.1) else none

/-- Embedding of `datetime.strptime(s, "%m/%d/%Y %I:%M:%S %p")` reduced to the
`(hour24, minute)` pair the caller keeps, with the 12-hour-to-24-hour
conversion and the `datetime` constructor's range validation; `none` where
Python raises `ValueError`. -/
def parseMachineTime (s : String) : Option (Nat × Nat) :=
  (rawMachineDate s.toList).bind fun md =>
  (rawMachineClock md.2.2.2).bind fun cl =>
  let mo := md.1
  let dy := md.2.1
  let yr := md.2.2.1
  let h24 :=
    if cl.2.2.2 then (if cl.1 = 12 then 12 else cl.1 + 12)
    else (if cl.1 = 12 then 0 else cl.1)
  if 1 ≤ mo ∧ mo ≤ 12 ∧ 1 ≤ dy ∧ dy ≤ daysInMonth yr mo ∧
      1 ≤ yr ∧ yr ≤ 9999 ∧ cl.2.1 ≤ 59 ∧ cl.2.2.1 ≤ 59 then
    some (h24, cl.2.1)
  else none

/-- Decimal rendering zero-padded to width 2 (`%H`, `%M`, `%m`, `%d`). -/
def pad2 (n : Nat) : String :=
  if n < 10 then "0" ++ toString n else toString n

/-- Decimal rendering zero-padded to width 4 (`%Y`). -/
def pad4 (n : Nat) : String :=
  if n < 10 then "000" ++ toString n
  else if n < 100 then "00" ++ toString n
  else if n < 1000 then "0" ++ toString n
  else toString n

/-- Rendering `strftime("%H:%M")` of a parsed (hour, minute) pair. -/
def formatHHMM (h mi : Nat) : String :=
  pad2 h ++ ":" ++ pad2 mi

/-- Rendering `strftime("%Y-%m-%d")` of a date. -/
def formatISODate (d : Date) : String :=
  pad4 d.y ++ "-" ++ pad2 d.m ++ "-" ++ pad2 d.d

/-- The time window `time_window.json` resolves to: `start_date`/`end_date`
(browse.py `load_time_window`, alert.py `load_time_window`). The file is
re-read on every membership check; within one run it is constant, so it is a
parameter here. -/
structure Window where
  start_date : Date
  end_date : Date
deriving DecidableEq, Repr

/-- The hard-coded fallback window `datetime(2025, 3, 24), datetime(2025, 4, 24)`
used when `time_window.json` is missing or corrupt. -/
def defaultWindow : Window :=
  ⟨⟨2025, 3, 24⟩, ⟨2025, 4, 24⟩⟩

/-- Embedding of `is_alert_date` (identical in browse.py and alert.py) with its
print side effects: parse the string with `%Y-%m-%d`, compare
`start_date <= date < end_date`; a `ValueError` from the parse is caught and
turned into `False`. Neither path prints anything, so the log component is
empty in both branches. -/
def is_alert_date_logged (w : Window) (s : String) : Bool × List String :=
  match parseDateISO s with
  | some d => (Date.ble w.start_date d && Date.blt d w.end_date, [])
  | none => (false, [])

/-- Return value of `is_alert_date`. -/
def is_alert_date (w : Window) (s : String) : Bool :=
  (is_alert_date_logged w s).1

/-- Component bounds every date built by `mkValidDate` satisfies. -/
def validDate (d : Date) : Prop :=
  1 ≤ d.y ∧ d.y ≤ 9999 ∧ 1 ≤ d.m ∧ d.m ≤ 12 ∧ 1 ≤ d.d ∧ d.d ≤ 31

instance (d : Date) : Decidable (validDate d) := by
  unfold validDate; infer_instance

/-- Numeric key `y*10000 + m*100 + d`; on valid dates its order coincides
with `datetime`'s lexicographic order. -/
def dateVal (d : Date) : Nat :=
  d.y * 10000 + d.m * 100 + d.d

/-- One available time slot as scraped: visible text plus the
`data-datetime` attribute (browse.py, the inner loop of
`parse_date_time_group`). -/
structure TimeSlot where
  display : String
  datetime : String
deriving DecidableEq, Repr

/-- One `div.DateTimeGrouping-Group` as scraped: the `group_data` dict of
`parse_date_time_group`. -/
structure TimeGroup where
  title : String
  available_count : String
  times : List TimeSlot
deriving DecidableEq, Repr

/-- One `date_data` dict of `parse_date_time_group`, also the per-date
record consumed by `transform_data`. -/
structure DateGroup where
  day_name : String
  full_date : String
  time_groups : List TimeGroup
deriving DecidableEq, Repr

/-- One `div.DateTimeGrouping-Column` on a rendered page: its `aria-label`
attribute and the time groups nested inside it. -/
structure DateColumn where
  aria_label : String
  groups : List TimeGroup
deriving DecidableEq, Repr

instance {ε α : Type} [DecidableEq ε] [DecidableEq α] :
    DecidableEq (Except ε α) := fun a b =>
  match a, b with
  | .ok x, .ok y =>
    if h : x = y then .isTrue (by rw [h]) else .isFalse (by simp [h])
  | .error x, .error y =>
    if h : x = y then .isTrue (by rw [h]) else .isFalse (by simp [h])
  | .ok _, .error _ => .isFalse (by simp)
  | .error _, .ok _ => .isFalse (by simp)

/-- Match a literal character sequence. -/
def expectStr : List Char → List Char → Option (List Char)
  | [], cs => some cs
  | _ :: _, [] => none
  | l :: ls, c :: cs => if c = l then expectStr ls cs else none

/-- Match `[A-Za-z]+`: a maximal non-empty letter run. -/
def takeAlpha1 (cs : List Char) : Option (List Char × List Char) :=
  let a := cs.takeWhile Char.isAlpha
  if a = [] then none else some (a, cs.dropWhile Char.isAlpha)

/-- Match `\d+`: a maximal non-empty digit run. -/
def takeDigits1 (cs : List Char) : Option (List Char × List Char) :=
  let a := cs.takeWhile Char.isDigit
  if a = [] then none else some (a, cs.dropWhile Char.isDigit)

/-- Match `\d{4}`: exactly four digits. -/
def takeDigits4 (cs : List Char) : Option (List Char × List Char) :=
  let p := takeN 4 cs
  if p.1.length = 4 ∧ p.1.all Char.isDigit then some p else none

/-- Attempt the regex
`<p>([A-Za-z]+)</p><p>([A-Za-z]+ \d+, \d{4})</p>` at the start of the
input; letter and digit runs are maximal (the following literals are
neither letters nor digits, so greedy matching with no backtracking is
exact), and the year is exactly four digits. Returns (day-name group,
full-date group). -/
def matchLabelAt (cs : List Char) : Option (String × String) :=
  (expectStr ['<', 'p', '>'] cs).bind fun r1 =>
  (takeAlpha1 r1).bind fun pday =>
  (expectStr ['<', '/', 'p', '>', '<', 'p', '>'] pday.2).bind fun r2 =>
  (takeAlpha1 r2).bind fun pmon =>
  (expectChar ' ' pmon.2).bind fun r3 =>
  (takeDigits1 r3).bind fun pnum =>
  (expectStr [',', ' '] pnum.2).bind fun r4 =>
  (takeDigits4 r4).bind fun pyr =>
  (expectStr ['<', '/', 'p', '>'] pyr.2).map fun _ =>
  (String.mk pday.1,
    String.mk (pmon.1 ++ ' ' :: pnum.1 ++ ',' :: ' ' :: pyr.1))

/-- Scan of `re.search` over the aria-label: try `matchLabelAt` at each successive
start position, leftmost match wins. -/
def matchLabel : List Char → Option (String × String)
  | [] => matchLabelAt []
  | c :: cs =>
    match matchLabelAt (c :: cs) with
    | some r => some r
    | none => matchLabel cs

/-- One pass of the column loop body of `parse_date_time_group`
(browse.py:59-142). State: the `dates` accumulator and the function-scoped
`group_data` variable, which Python leaves bound across loop iterations;
`none` models it being unbound. An unparsable aria-label or a
`ValueError` from the date parse skips the column; for an in-window column
the group loop rebinds `group_data` once per group, and the single
`date_data['time_groups'].append(group_data)` after the loop reads whatever
`group_data` then holds — raising `NameError` (not caught by the
`except ValueError` handler) when it was never bound. -/
def pdtgStep (w : Window) (st : List DateGroup × Option TimeGroup)
    (col : DateColumn) : Except String (List DateGroup × Option TimeGroup) :=
  match matchLabel col.aria_label.toList with
  | none => .ok st
  | some (day, fd) =>
    match parseDateMDY fd with
    | none => .ok st
    | some dt =>
      if is_alert_date w (formatISODate dt) then
        match col.groups.foldl (fun _ g => some g) st.2 with
        | none => .error "NameError: group_data is not defined"
        | some g => .ok (st.1 ++ [⟨day, fd, [g]⟩], some g)
      else .ok st

/-- The column loop of `parse_date_time_group`, threading the
`(dates, group_data)` state; an uncaught exception aborts the loop. -/
def pdtgGo (w : Window) (st : List DateGroup × Option TimeGroup) :
    List DateColumn → Except String (List DateGroup)
  | [] => .ok st.1
  | col :: rest =>
    match pdtgStep w st col with
    | .error e => .error e
    | .ok st2 => pdtgGo w st2 rest

/-- Embedding of `parse_date_time_group(page, location)` (browse.py:49-144) over the
page's date columns; the window is the content of `time_window.json`,
re-read by each `is_alert_date` call. Returns the `dates` list, or the
uncaught exception that escapes the function. -/
def parse_date_time_group (w : Window) (location : String)
    (cols : List DateColumn) : Except String (List DateGroup) :=
  pdtgGo w ([], none) cols

/-- HH:MM strings harvested from one `time_group` dict by `transform_data`:
each slot's `data-datetime` is parsed with `%m/%d/%Y %I:%M:%S %p` and
reformatted `%H:%M`; unparsable slots are dropped with a warning. -/
def groupTimes (g : TimeGroup) : List String :=
  g.times.filterMap fun t =>
    (parseMachineTime t.datetime).map fun hm => formatHHMM hm.1 hm.2

/-- All HH:MM strings one `date_data` contributes in `transform_data`'s
nested loops, in group/slot order. -/
def dateGroupTimes (dd : DateGroup) : List String :=
  dd.time_groups.flatMap groupTimes

/-- The ISO key `transform_data` files a `date_data` under: its
`full_date` parsed with `%b %d, %Y` and reformatted `%Y-%m-%d`; `none`
when the parse fails (the record is then skipped with a warning). -/
def isoKeyOf (dd : DateGroup) : Option String :=
  (parseDateMDY dd.full_date).map formatISODate

/-- The dict mutation `transform_data` performs per `date_data`: create the
key with `[]` if absent, then extend its list (Python dicts keep insertion
order, so a fresh key goes to the end). -/
def addTimes : List (String × List String) → String → List String →
    List (String × List String)
  | [], k, ts => [(k, ts)]
  | (k', v) :: rest, k, ts =>
    if k' = k then (k', v ++ ts) :: rest else (k', v) :: addTimes rest k ts

/-- The per-location part of `transform_data` (browse.py:197-231): iterate
the location's pages, each page's `dates`, and accumulate into the
per-location dict. -/
def transformLoc (pages : List (List DateGroup)) : List (String × List String) :=
  (pages.flatMap id).foldl
    (fun m dd =>
      match isoKeyOf dd with
      | none => m
      | some iso => addTimes m iso (dateGroupTimes dd))
    []

/-- Embedding of `transform_data(all_data)` (browse.py:197-231): the input is
`all_data['locations']` reduced to each location's pages' `dates` lists;
the output is the location → ISO date → times nested dict. -/
def transform_data (locs : List (String × List (List DateGroup))) :
    List (String × List (String × List String)) :=
  locs.map fun p => (p.1, transformLoc p.2)

/-- Python `str.strip()`: drop leading and trailing whitespace. -/
def pyStrip (s : String) : String :=
  String.mk ((dropWs (dropWs s.toList.reverse).reverse))

/-- Embedding of `load_list(filename)` (alert.py:10-15, browse.py:16-20): `none` models
a missing file (→ empty set); otherwise the set of stripped, non-blank
lines. The Python `set` is represented as a duplicate-free list; only
membership is ever consumed. -/
def load_list : Option (List String) → List String
  | none => []
  | some lines =>
    ((lines.map pyStrip).filter fun s => decide (s ≠ "")).dedup

/-- One alert record appended by `analyze_appointments` (alert.py:78-83). -/
structure Alert where
  location : String
  date : String
  times : List String
  url : String
deriving DecidableEq, Repr

/-- Python `<` on code-point lists: lexicographic, a strict prefix is
smaller. -/
def chLt : List Char → List Char → Bool
  | [], [] => false
  | [], _ :: _ => true
  | _ :: _, [] => false
  | a :: as, b :: bs =>
    if a.toNat < b.toNat then true
    else if a.toNat = b.toNat then chLt as bs
    else false

/-- Python `<` on strings: lexicographic comparison by code points. -/
def strLt (a b : String) : Bool :=
  chLt a.toList b.toList

/-- Python `sorted` on strings: insert each element into an ascending list,
comparing by code points. -/
def pyInsert (x : String) : List String → List String
  | [] => [x]
  | y :: ys => if strLt x y then x :: y :: ys else y :: pyInsert x ys

/-- Python `sorted(times)`. -/
def pySort (l : List String) : List String :=
  l.foldl (fun acc x => pyInsert x acc) []

/-- Body of the per-date loop of `analyze_appointments` (alert.py:76-86):
state is `(alerts, match_found)`; an in-window date appends an alert record
unconditionally and sets `match_found` only when `times` is non-empty. -/
def alertStep (url loc : String) (w : Window) (st : List Alert × Bool)
    (q : String × List String) : List Alert × Bool :=
  if is_alert_date w q.1 then
    (st.1 ++ [⟨loc, q.1, pySort q.2, url⟩], st.2 || !q.2.isEmpty)
  else st

/-- The analysis phase of `analyze_appointments(data_file)` (alert.py:64-86):
iterate the snapshot's locations, skip blacklisted ones, and run the
per-date loop. Returns the `alerts` list and the `match_found` flag. -/
def analyze (url : String) (blacklist : List String) (w : Window)
    (snap : List (String × List (String × List String))) :
    List Alert × Bool :=
  snap.foldl
    (fun st p =>
      if blacklist.contains p.1 then st
      else p.2.foldl (alertStep url p.1 w) st)
    ([], false)

/-- Body of the printing loop of `analyze_appointments` (alert.py:92-101):
state is (printed entries, `locations_printed`); an alert whose location
was already printed is skipped. -/
def printedStep (st : List Alert × List String) (a : Alert) :
    List Alert × List String :=
  if st.2.contains a.location then st
  else (st.1 ++ [a], st.2 ++ [a.location])

/-- The printing loop of `analyze_appointments` (alert.py:89-101): walk the
alerts with an initially empty `locations_printed` list. Returns the
printed entries in order. -/
def printedAlerts (alerts : List Alert) : List Alert :=
  (alerts.foldl printedStep ([], [])).1

/-- Body of the `unique_locations` loop of `analyze_appointments`
(alert.py:114-124): first occurrence of each location is appended. -/
def uniqueLocStep (st : List String) (a : Alert) : List String :=
  if st.contains a.location then st else st ++ [a.location]

/-- The notification side effect of `analyze_appointments`
(alert.py:105-124): when `match_found` is set, Firefox is pointed once at
the booking URL and then once per location in `unique_locations`, built by
first occurrence over the whole `alerts` list; when `match_found` is not
set, nothing is launched. Returns the locations notified, in order. -/
def notifiedLocations (alerts : List Alert) (match_found : Bool) : List String :=
  if match_found then alerts.foldl uniqueLocStep [] else []

/-- Outcome of processing one location inside `test_list_buttons`'s town
loop (browse.py:282-365): the location's collected pages were stored; or an
uncaught exception was raised and the `page.goto(url)` recovery succeeded
(the location's data is lost, the loop continues); or the recovery itself
raised (the loop `break`s). -/
inductive LocOutcome (α : Type)
  | ok (data : α)
  | errRecovered
  | errUnrecoverable
deriving DecidableEq, Repr

/-- The town loop of `test_list_buttons` (browse.py:282-365): blacklisted
locations are skipped with `continue` before any navigation; a stored
location contributes its data; a recovered error contributes nothing; a
failed recovery prints a diagnostic and `break`s out of the loop, dropping
every later location. -/
def traverse {α : Type} (bl : List String) :
    List (String × LocOutcome α) → List (String × α)
  | [] => []
  | (name, o) :: rest =>
    if bl.contains name then traverse bl rest
    else
      match o with
      | .ok d => (name, d) :: traverse bl rest
      | .errRecovered => traverse bl rest
      | .errUnrecoverable => []

/-- What `test_list_buttons` does after its town loop ends, however it
ends (browse.py:367-446): close the browser, update the whitelist, run
`transform_data` on whatever was collected, write the snapshot file, launch
`alert.py`, and return — the process exits 0 (no `--blacklist` flag given). -/
structure RunResult (α : Type) where
  collected : List (String × α)
  snapshot_written : Bool
  alert_launched : Bool
  exit_code : Nat
deriving DecidableEq, Repr

/-- The run skeleton of `test_list_buttons` (browse.py:244-446) with the
blacklist file contents and each location's navigation outcome as inputs. -/
def test_list_buttons {α : Type} (bl : List String)
    (locs : List (String × LocOutcome α)) : RunResult α :=
  ⟨traverse bl locs, true, true, 0⟩

/-- First-match association-list lookup: indexing into a Python dict
represented in insertion order. -/
def lookupA {α : Type} : List (String × α) → String → Option α
  | [], _ => none
  | (k, v) :: rest, k' => if k = k' then some v else lookupA rest k'

/-- Closed form of the `alerts` list `analyze` builds (proved equal to the
fold below): one record per non-blacklisted location and in-window date, in
snapshot order, regardless of whether the date's time list is empty. -/
def alertsSpec (url : String) (blacklist : List String) (w : Window)
    (snap : List (String × List (String × List String))) : List Alert :=
  (snap.filter fun p => !blacklist.contains p.1).flatMap fun p =>
    (p.2.filter fun q => is_alert_date w q.1).map fun q =>
      ⟨p.1, q.1, pySort q.2, url⟩

/-- Closed form of the `match_found` flag `analyze` computes (proved equal
to the fold below): some non-blacklisted location has an in-window date
with a non-empty time list. -/
def matchFoundSpec (blacklist : List String) (w : Window)
    (snap : List (String × List (String × List String))) : Bool :=
  (snap.filter fun p => !blacklist.contains p.1).any fun p =>
    p.2.any fun q => is_alert_date w q.1 && !q.2.isEmpty

/-- Direct recursion for "first alert per distinct location, given locations
already seen" (proved equal to the printing loop's fold). -/
def firstAlertPerLoc : List Alert → List String → List Alert
  | [], _ => []
  | a :: rest, seen =>
    if seen.contains a.location then firstAlertPerLoc rest seen
    else a :: firstAlertPerLoc rest (seen ++ [a.location])

/-- Direct recursion for "first occurrence of each alert location, given
locations already seen" (proved equal to the notification loop's fold). -/
def uniqueAlertLocs : List Alert → List String → List String
  | [], _ => []
  | a :: rest, seen =>
    if seen.contains a.location then uniqueAlertLocs rest seen
    else a.location :: uniqueAlertLocs rest (seen ++ [a.location])

/-- Every HH:MM string the pages of one location contribute to a given ISO
date, in page / date-group / time-group / slot order (the closed form the
per-location `transform_data` accumulator is proved to realize). -/
def contributedTimes (pages : List (List DateGroup)) (iso : String) :
    List String :=
  ((pages.flatMap id).filter fun dd => decide (isoKeyOf dd = some iso)).flatMap
    dateGroupTimes

/-- Sample in-window column label: aria-label of a date column for
Thursday, April 10, 2025. -/
def sampleLabel : String := "<p>Thursday</p><p>Apr 10, 2025</p>"

/-- Sample morning time group with one 9:00 AM slot. -/
def morningGroup : TimeGroup :=
  ⟨"Morning", "5", [⟨"9:00 AM", "04/10/2025 09:00:00 AM"⟩]⟩

/-- Sample afternoon time group with one 1:00 PM slot. -/
def afternoonGroup : TimeGroup :=
  ⟨"Afternoon", "3", [⟨"1:00 PM", "04/10/2025 01:00:00 PM"⟩]⟩

/-- A page record contributing times 09:00 and 10:30 for April 10, 2025. -/
def pageOne : List DateGroup :=
  [⟨"Thursday", "Apr 10, 2025",
    [⟨"Morning", "2",
      [⟨"9:00 AM", "04/10/2025 09:00:00 AM"⟩,
       ⟨"10:30 AM", "04/10/2025 10:30:00 AM"⟩]⟩]⟩]

/-- A later page record contributing times 10:30, 09:00 and 11:00 for the
same location and date. -/
def pageTwo : List DateGroup :=
  [⟨"Thursday", "Apr 10, 2025",
    [⟨"Morning", "3",
      [⟨"10:30 AM", "04/10/2025 10:30:00 AM"⟩,
       ⟨"9:00 AM", "04/10/2025 09:00:00 AM"⟩,
       ⟨"11:00 AM", "04/10/2025 11:00:00 AM"⟩]⟩]⟩]

/-- Snapshot whose only date list is empty but in-window. -/
def snapEmptyTimes : List (String × List (String × List String)) :=
  [("Springfield", [("2025-04-01", [])])]

/-- Snapshot where location LocA has an empty-times in-window date before a
qualifying one, and LocB has only an empty-times in-window date. -/
def snapMixed : List (String × List (String × List String)) :=
  [("LocA", [("2025-04-01", []), ("2025-04-02", ["09:00"])]),
   ("LocB", [("2025-04-03", [])])]

theorem daysInMonth_le (y m : Nat) : daysInMonth y m ≤ 31 := by
  unfold daysInMonth
  split
  · split <;> omega
  · split <;> omega

theorem mkValidDate_valid {y m d : Nat} {dt : Date}
    (h : mkValidDate y m d = some dt) : validDate dt := by
  unfold mkValidDate at h
  split at h
  · rename_i hb
    cases h
    exact ⟨hb.1, hb.2.1, hb.2.2.1, hb.2.2.2.1, hb.2.2.2.2.1,
      le_trans hb.2.2.2.2.2 (daysInMonth_le y m)⟩
  · cases h

theorem parseDateISO_valid {s : String} {dt : Date}
    (h : parseDateISO s = some dt) : validDate dt := by
  unfold parseDateISO at h
  cases hr : rawISODate s.toList with
  | none => rw [hr] at h; cases h
  | some t => rw [hr] at h; exact mkValidDate_valid h

theorem ble_iff_dateVal {a b : Date} (ha : validDate a) (hb : validDate b) :
    Date.ble a b = true ↔ dateVal a ≤ dateVal b := by
  obtain ⟨_, _, _, _, _, _⟩ := ha
  obtain ⟨_, _, _, _, _, _⟩ := hb
  simp only [Date.ble, dateVal, Bool.or_eq_true, Bool.and_eq_true,
    decide_eq_true_eq]
  omega

theorem blt_iff_dateVal {a b : Date} (ha : validDate a) (hb : validDate b) :
    Date.blt a b = true ↔ dateVal a < dateVal b := by
  obtain ⟨_, _, _, _, _, _⟩ := ha
  obtain ⟨_, _, _, _, _, _⟩ := hb
  simp only [Date.blt, dateVal, Bool.or_eq_true, Bool.and_eq_true,
    decide_eq_true_eq]
  omega

theorem foldl_alertStep (url loc : String) (w : Window) :
    ∀ (dates : List (String × List String)) (st : List Alert × Bool),
    dates.foldl (alertStep url loc w) st =
      (st.1 ++ (dates.filter fun q => is_alert_date w q.1).map
          (fun q => ⟨loc, q.1, pySort q.2, url⟩),
       st.2 || dates.any fun q => is_alert_date w q.1 && !q.2.isEmpty) := by
  intro dates
  induction dates with
  | nil => intro st; simp
  | cons q rest ih =>
    intro st
    by_cases h : is_alert_date w q.1 = true
    · simp only [List.foldl_cons, alertStep, h, if_true, List.filter_cons,
        List.any_cons, ih, Bool.true_and, List.append_assoc, Bool.or_assoc,
        List.cons_append, List.nil_append, List.map_cons]
    · simp only [Bool.not_eq_true] at h
      simp only [List.foldl_cons, alertStep, h, Bool.false_eq_true, if_false,
        List.filter_cons, List.any_cons, ih, Bool.false_and, Bool.false_or]

theorem analyze_spec_eq (url : String) (bl : List String) (w : Window)
    (snap : List (String × List (String × List String))) :
    analyze url bl w snap = (alertsSpec url bl w snap, matchFoundSpec bl w snap) := by
  have main : ∀ (sn : List (String × List (String × List String)))
      (st : List Alert × Bool),
      sn.foldl
          (fun st p =>
            if bl.contains p.1 then st else p.2.foldl (alertStep url p.1 w) st)
          st =
        (st.1 ++ alertsSpec url bl w sn, st.2 || matchFoundSpec bl w sn) := by
    intro sn
    induction sn with
    | nil => intro st; simp [alertsSpec, matchFoundSpec]
    | cons p rest ih =>
      intro st
      by_cases hbl : bl.contains p.1 = true
      · have hmem : p.1 ∈ bl := by simpa using hbl
        rw [List.foldl_cons, if_pos hbl, ih]
        simp [alertsSpec, matchFoundSpec, List.filter_cons, hmem]
      · have hmem : p.1 ∉ bl := by simpa using hbl
        rw [List.foldl_cons, if_neg hbl, foldl_alertStep, ih]
        simp [alertsSpec, matchFoundSpec, List.filter_cons, hmem,
          List.append_assoc, Bool.or_assoc]
  simpa [analyze] using main snap ([], false)

theorem foldl_printedStep :
    ∀ (alerts : List Alert) (acc : List Alert) (seen : List String),
    (alerts.foldl printedStep (acc, seen)).1 = acc ++ firstAlertPerLoc alerts seen := by
  intro alerts
  induction alerts with
  | nil => intro acc seen; simp [firstAlertPerLoc]
  | cons a rest ih =>
    intro acc seen
    by_cases h : seen.contains a.location = true
    · have hmem : a.location ∈ seen := by simpa using h
      simp [List.foldl_cons, printedStep, h, firstAlertPerLoc, ih, hmem]
    · have hmem : a.location ∉ seen := by simpa using h
      simp [List.foldl_cons, printedStep, h, firstAlertPerLoc, ih, hmem,
        List.append_assoc]

theorem foldl_uniqueLocStep :
    ∀ (alerts : List Alert) (seen : List String),
    alerts.foldl uniqueLocStep seen = seen ++ uniqueAlertLocs alerts seen := by
  intro alerts
  induction alerts with
  | nil => intro seen; simp [uniqueAlertLocs]
  | cons a rest ih =>
    intro seen
    by_cases h : seen.contains a.location = true
    · have hmem : a.location ∈ seen := by simpa using h
      simp [List.foldl_cons, uniqueLocStep, h, uniqueAlertLocs, ih, hmem]
    · have hmem : a.location ∉ seen := by simpa using h
      simp [List.foldl_cons, uniqueLocStep, h, uniqueAlertLocs, ih, hmem,
        List.append_assoc]

theorem firstAlertPerLoc_map_location :
    ∀ (alerts : List Alert) (seen : List String),
    (firstAlertPerLoc alerts seen).map (fun a => a.location) =
      uniqueAlertLocs alerts seen := by
  intro alerts
  induction alerts with
  | nil => intro seen; simp [firstAlertPerLoc, uniqueAlertLocs]
  | cons a rest ih =>
    intro seen
    by_cases h : seen.contains a.location = true
    · have hmem : a.location ∈ seen := by simpa using h
      simp [firstAlertPerLoc, uniqueAlertLocs, hmem, ih]
    · have hmem : a.location ∉ seen := by simpa using h
      simp [firstAlertPerLoc, uniqueAlertLocs, hmem, ih]

theorem lookupA_addTimes :
    ∀ (m : List (String × List String)) (k : String) (ts : List String)
      (k' : String),
    (lookupA (addTimes m k ts) k').getD [] =
      if k' = k then (lookupA m k').getD [] ++ ts
      else (lookupA m k').getD [] := by
  intro m
  induction m with
  | nil =>
    intro k ts k'
    by_cases h : k' = k
    · subst h
      simp [addTimes, lookupA]
    · have h2 : ¬ k = k' := fun hk => h hk.symm
      simp [addTimes, lookupA, h, h2]
  | cons p rest ih =>
    intro k ts k'
    obtain ⟨pk, pv⟩ := p
    by_cases hp : pk = k
    · subst hp
      by_cases h : pk = k'
      · subst h
        simp [addTimes, lookupA]
      · have h2 : ¬ k' = pk := fun hk => h hk.symm
        simp [addTimes, lookupA, h, h2]
    · by_cases h : pk = k'
      · subst h
        have h2 : ¬ pk = k := hp
        have h3 : ¬ pk = k := hp
        simp [addTimes, lookupA, h2, fun hk : pk = k => hp hk]
      · simp [addTimes, lookupA, hp, h, ih]

theorem lookupA_transform_data (locs : List (String × List (List DateGroup)))
    (loc : String) :
    lookupA (transform_data locs) loc = (lookupA locs loc).map transformLoc := by
  induction locs with
  | nil => simp [transform_data, lookupA]
  | cons p rest ih =>
    by_cases h : p.1 = loc
    · simp [transform_data, lookupA, h]
    · simpa [transform_data, lookupA, h] using ih

theorem transformLoc_lookup (dds : List DateGroup) :
    ∀ (m : List (String × List String)) (iso : String),
    (lookupA
        (dds.foldl
          (fun m dd =>
            match isoKeyOf dd with
            | none => m
            | some iso2 => addTimes m iso2 (dateGroupTimes dd))
          m)
        iso).getD [] =
      (lookupA m iso).getD [] ++
        (dds.filter fun dd => decide (isoKeyOf dd = some iso)).flatMap
          dateGroupTimes := by
  induction dds with
  | nil => intro m iso; simp
  | cons dd rest ih =>
    intro m iso
    cases hk : isoKeyOf dd with
    | none =>
      simp only [List.foldl_cons, hk, List.filter_cons]
      simp [ih, hk]
    | some i =>
      simp only [List.foldl_cons, hk]
      rw [ih, lookupA_addTimes]
      by_cases hii : iso = i
      · subst hii
        simp [List.filter_cons, hk, List.append_assoc]
      · have hii2 : ¬ i = iso := fun hh => hii hh.symm
        have hne : ¬ isoKeyOf dd = some iso := by
          rw [hk]
          exact fun hh => hii (Option.some.inj hh).symm
        simp [List.filter_cons, hk, hii, hii2, hne]

theorem traverse_break {α : Type} (bl : List String) :
    ∀ (pre : List (String × LocOutcome α)) (name : String)
      (post : List (String × LocOutcome α)),
    (∀ p ∈ pre, p.2 ≠ LocOutcome.errUnrecoverable) →
    bl.contains name = false →
    traverse bl (pre ++ (name, LocOutcome.errUnrecoverable) :: post) =
      traverse bl pre := by
  intro pre
  induction pre with
  | nil =>
    intro name post _ hbl
    have hmem : name ∉ bl := by simpa using hbl
    simp [traverse, hmem]
  | cons p rest ih =>
    intro name post hpre hbl
    obtain ⟨n, o⟩ := p
    have hrest : ∀ p ∈ rest, p.2 ≠ LocOutcome.errUnrecoverable :=
      fun p hp => hpre p (List.mem_cons_of_mem _ hp)
    by_cases hn : bl.contains n = true
    · simp [List.cons_append, traverse, hn, ih name post hrest hbl]
    · cases o with
      | ok d =>
        simp [List.cons_append, traverse, hn, ih name post hrest hbl]
      | errRecovered =>
        simp [List.cons_append, traverse, hn, ih name post hrest hbl]
      | errUnrecoverable =>
        exact absurd rfl
          (hpre (n, LocOutcome.errUnrecoverable) (List.mem_cons_self _ _))

/-- Claim C7: for every well-formed YYYY-MM-DD date string and window, the
membership test `is_alert_date` holds iff `start_date <= d < end_date`
(start inclusive, end exclusive); and for the default window
start=2025-03-24, end=2025-04-24: contains("2025-03-24") is true,
contains("2025-04-24") is false, contains("2025-04-23") is true. -/
theorem is_alert_date_window_semantics :
    (∀ (w : Window) (s : String) (d : Date),
      validDate w.start_date → validDate w.end_date →
      parseDateISO s = some d →
      (is_alert_date w s = true ↔
        dateVal w.start_date ≤ dateVal d ∧ dateVal d < dateVal w.end_date)) ∧
    is_alert_date defaultWindow "2025-03-24" = true ∧
    is_alert_date defaultWindow "2025-04-24" = false ∧
    is_alert_date defaultWindow "2025-04-23" = true := by
  refine ⟨?_, by decide, by decide, by decide⟩
  intro w s d hs he hp
  have hd := parseDateISO_valid hp
  simp only [is_alert_date, is_alert_date_logged, hp, Bool.and_eq_true]
  rw [ble_iff_dateVal hs hd, blt_iff_dateVal hd he]

/-- Witness for C7: the general clause applied at the concrete date
2025-03-25 inside the default window. -/
theorem is_alert_date_window_semantics_w :
    is_alert_date defaultWindow "2025-03-25" = true :=
  (is_alert_date_window_semantics.1 defaultWindow "2025-03-25" ⟨2025, 3, 25⟩
    (by decide) (by decide) (by decide)).mpr (by decide)

/-- Claim C8 counterexample: a malformed date string makes `is_alert_date`
return the membership answer `false` with an empty log — observationally
identical to the well-formed, out-of-window date "2025-05-01" — so the
parse failure is neither surfaced as a failure nor logged. -/
theorem malformed_membership_cex :
    is_alert_date_logged defaultWindow "04/10/2025" = (false, []) ∧
    is_alert_date_logged defaultWindow "2025-05-01" = (false, []) := by decide

/-- Claim C8 as amended: for every malformed input the `except ValueError`
in `is_alert_date` silently converts the parse failure into the membership
answer `false`; nothing is logged. -/
theorem malformed_is_silent_false (w : Window) (s : String)
    (h : parseDateISO s = none) : is_alert_date_logged w s = (false, []) := by
  simp [is_alert_date_logged, h]

/-- Witness for the amended C8 at the concrete input "not-a-date". -/
theorem malformed_is_silent_false_w :
    is_alert_date_logged defaultWindow "not-a-date" = (false, []) :=
  malformed_is_silent_false defaultWindow "not-a-date" (by decide)

/-- Claim C2 counterexample: for a snapshot whose only (in-window) date has
an empty time list, `analyze_appointments` still appends one alert record
(the claim requires zero); only `match_found` stays false. -/
theorem analyze_empty_times_cex :
    (analyze "u" [] defaultWindow snapEmptyTimes).1 =
      [⟨"Springfield", "2025-04-01", [], "u"⟩] ∧
    (analyze "u" [] defaultWindow snapEmptyTimes).2 = false := by decide

/-- Claim C2 as amended: `analyze_appointments` emits an alert record for
every non-excluded location and in-window date regardless of whether the
time list is empty; `match_found` — which alone gates the notification — is
set iff some such date has a non-empty list, so an all-empty snapshot
yields alert records but no notification launch. -/
theorem analyze_emits_all_in_window_dates (url : String) (bl : List String)
    (w : Window) (snap : List (String × List (String × List String))) :
    analyze url bl w snap = (alertsSpec url bl w snap, matchFoundSpec bl w snap) ∧
    ((∀ p ∈ snap, ∀ q ∈ p.2, q.2 = ([] : List String)) →
      (analyze url bl w snap).2 = false ∧
      notifiedLocations (analyze url bl w snap).1 (analyze url bl w snap).2 =
        []) := by
  refine ⟨analyze_spec_eq url bl w snap, ?_⟩
  intro hall
  have hmf : (analyze url bl w snap).2 = false := by
    rw [analyze_spec_eq]
    simp only [matchFoundSpec]
    rw [List.any_eq_false]
    intro p hp
    rw [Bool.not_eq_true, List.any_eq_false]
    intro q hq
    have hq2 := hall p (List.mem_of_mem_filter hp) q hq
    simp [hq2]
  refine ⟨hmf, ?_⟩
  rw [hmf]
  simp [notifiedLocations]

/-- Witness for the amended C2 at a concrete all-empty snapshot. -/
theorem analyze_emits_all_in_window_dates_w :
    (analyze "u2" [] defaultWindow snapEmptyTimes).2 = false ∧
    notifiedLocations (analyze "u2" [] defaultWindow snapEmptyTimes).1
      (analyze "u2" [] defaultWindow snapEmptyTimes).2 = [] :=
  (analyze_emits_all_in_window_dates "u2" [] defaultWindow snapEmptyTimes).2
    (by decide)

/-- Claim C4: `analyze_appointments` never emits an alert record for a
blacklisted location, whatever the snapshot holds for it. -/
theorem analyze_never_alerts_blacklisted (url : String) (bl : List String)
    (w : Window) (snap : List (String × List (String × List String)))
    (a : Alert) (h : a ∈ (analyze url bl w snap).1) :
    bl.contains a.location = false := by
  rw [analyze_spec_eq] at h
  simp only [alertsSpec, List.mem_flatMap, List.mem_filter, List.mem_map] at h
  obtain ⟨p, ⟨hp, hbl⟩, q, hq, rfl⟩ := h
  simpa using hbl

/-- Witness for C4: LocA is blacklisted in `snapMixed`, and the single
surviving alert is for LocB, which is indeed not blacklisted. -/
theorem analyze_never_alerts_blacklisted_w :
    (["LocA"] : List String).contains
      (Alert.mk "LocB" "2025-04-03" [] "u").location = false :=
  analyze_never_alerts_blacklisted "u" ["LocA"] defaultWindow snapMixed
    ⟨"LocB", "2025-04-03", [], "u"⟩ (by decide)

/-- Claim C5 counterexample: in `snapMixed`, LocA's printed entry is its
first in-window date 2025-04-01, whose time list is empty — not its first
qualifying (non-empty) date 2025-04-02 — and LocB, which has no non-empty
date at all, still receives a notification. -/
theorem alert_reporting_cex :
    printedAlerts (analyze "u" [] defaultWindow snapMixed).1 =
      [⟨"LocA", "2025-04-01", [], "u"⟩, ⟨"LocB", "2025-04-03", [], "u"⟩] ∧
    notifiedLocations (analyze "u" [] defaultWindow snapMixed).1
      (analyze "u" [] defaultWindow snapMixed).2 = ["LocA", "LocB"] := by decide

/-- Claim C5 as amended: the human-readable summary surfaces exactly the
first alert record per distinct location (the location's first in-window
date, whether or not its time list is empty), and when `match_found` is set
the notification fires exactly once per distinct location occurring in the
alert record list — the notified locations are precisely the locations of
the printed entries; when `match_found` is unset nothing is notified. -/
theorem alert_reporting_first_per_location (alerts : List Alert)
    (match_found : Bool) :
    printedAlerts alerts = firstAlertPerLoc alerts [] ∧
    notifiedLocations alerts match_found =
      (if match_found then
        (firstAlertPerLoc alerts []).map (fun a => a.location)
      else []) := by
  refine ⟨?_, ?_⟩
  · simpa using foldl_printedStep alerts [] []
  · rw [notifiedLocations, firstAlertPerLoc_map_location]
    cases match_found
    · simp
    · simpa using foldl_uniqueLocStep alerts []

/-- Claim C1 counterexample: two pages contributing 09:00, 10:30 and then
10:30, 09:00, 11:00 for the same location and date produce the raw
concatenation, not the sorted duplicate-free union the claim requires. -/
theorem transform_not_sorted_dedup_cex :
    transform_data [("X", [pageOne, pageTwo])] =
      [("X", [("2025-04-10",
        ["09:00", "10:30", "10:30", "09:00", "11:00"])])] ∧
    ["09:00", "10:30", "10:30", "09:00", "11:00"] ≠
      ["09:00", "10:30", "11:00"] := by decide

/-- Claim C1 as amended: for each location and ISO date, the time list
`transform_data` produces is the concatenation, in page / date-group /
group / slot order, of the HH:MM renderings of every parsable machine time
contributed to that date — duplicates retained and order not sorted. -/
theorem transform_data_concatenates
    (locs : List (String × List (List DateGroup))) (loc : String)
    (pages : List (List DateGroup)) (iso : String)
    (h : lookupA locs loc = some pages) :
    lookupA (transform_data locs) loc = some (transformLoc pages) ∧
    (lookupA (transformLoc pages) iso).getD [] = contributedTimes pages iso := by
  constructor
  · rw [lookupA_transform_data, h]
    rfl
  · unfold transformLoc contributedTimes
    simpa using transformLoc_lookup (pages.flatMap id) [] iso

/-- Witness for the amended C1 at the two concrete pages. -/
theorem transform_data_concatenates_w :
    lookupA (transform_data [("X", [pageOne, pageTwo])]) "X" =
      some (transformLoc [pageOne, pageTwo]) ∧
    (lookupA (transformLoc [pageOne, pageTwo]) "2025-04-10").getD [] =
      contributedTimes [pageOne, pageTwo] "2025-04-10" :=
  transform_data_concatenates [("X", [pageOne, pageTwo])] "X"
    [pageOne, pageTwo] "2025-04-10" (by decide)

/-- Claim C3: an in-window date column carrying two time groups yields a
DateGroup whose `time_groups` list holds only the last group — the single
`append` after the group loop discards every earlier group record. -/
theorem pdtg_keeps_only_last_group_cex :
    parse_date_time_group defaultWindow "Natick"
        [⟨sampleLabel, [morningGroup, afternoonGroup]⟩] =
      .ok [⟨"Thursday", "Apr 10, 2025", [afternoonGroup]⟩] := by decide

/-- Claim C9: an in-window date column with zero time groups makes
`parse_date_time_group` read the unbound `group_data` variable —
`NameError`, not caught by the per-column `except ValueError` — when no
earlier column bound it; and when an earlier in-window column did, the
stale last group of that column is silently attached to this date. -/
theorem pdtg_unbound_group_data (w : Window) (loc : String)
    (col : DateColumn) (day fd : String) (dt : Date)
    (h1 : matchLabel col.aria_label.toList = some (day, fd))
    (h2 : parseDateMDY fd = some dt)
    (h3 : is_alert_date w (formatISODate dt) = true)
    (h4 : col.groups = []) :
    parse_date_time_group w loc [col] =
      .error "NameError: group_data is not defined" ∧
    (∀ (col1 : DateColumn) (day1 fd1 : String) (dt1 : Date) (g : TimeGroup),
      matchLabel col1.aria_label.toList = some (day1, fd1) →
      parseDateMDY fd1 = some dt1 →
      is_alert_date w (formatISODate dt1) = true →
      col1.groups = [g] →
      parse_date_time_group w loc [col1, col] =
        .ok [⟨day1, fd1, [g]⟩, ⟨day, fd, [g]⟩]) := by
  have h1d : matchLabel col.aria_label.data = some (day, fd) := h1
  constructor
  · simp [parse_date_time_group, pdtgGo, pdtgStep, h1d, h2, h3, h4]
  · intro col1 day1 fd1 dt1 g k1 k2 k3 k4
    have k1d : matchLabel col1.aria_label.data = some (day1, fd1) := k1
    simp [parse_date_time_group, pdtgGo, pdtgStep, h1d, h2, h3, h4,
      k1d, k2, k3, k4]

/-- Witness for C9 at concrete columns: a lone empty column raises the
NameError; preceded by a one-group column, both dates get that group. -/
theorem pdtg_unbound_group_data_w :
    parse_date_time_group defaultWindow "Natick" [⟨sampleLabel, []⟩] =
      .error "NameError: group_data is not defined" ∧
    parse_date_time_group defaultWindow "Natick"
        [⟨sampleLabel, [morningGroup]⟩, ⟨sampleLabel, []⟩] =
      .ok [⟨"Thursday", "Apr 10, 2025", [morningGroup]⟩,
           ⟨"Thursday", "Apr 10, 2025", [morningGroup]⟩] := by
  have h := pdtg_unbound_group_data defaultWindow "Natick" ⟨sampleLabel, []⟩
    "Thursday" "Apr 10, 2025" ⟨2025, 4, 10⟩ (by decide) (by decide)
    (by decide) rfl
  exact ⟨h.1, h.2 ⟨sampleLabel, [morningGroup]⟩ "Thursday" "Apr 10, 2025"
    ⟨2025, 4, 10⟩ morningGroup (by decide) (by decide) (by decide) rfl⟩

/-- Claim C6 counterexample: a failed recovery at the second location drops
the rest of the traversal, yet the run still writes the snapshot, still
launches the alert step, and exits 0 — not the fatal non-zero abort the
claim requires. -/
theorem run_continues_after_failed_recovery_cex :
    test_list_buttons [] [("Boston", LocOutcome.ok (1 : Nat)),
        ("Natick", LocOutcome.errUnrecoverable),
        ("Worcester", LocOutcome.ok 2)] =
      ⟨[("Boston", 1)], true, true, 0⟩ := by decide

/-- Claim C6 as amended: an uncaught error whose recovery also fails makes
the town loop break — every later location goes unvisited — but the run is
not aborted: the snapshot is still written from the locations collected
before the failure, the alert step still runs, and the process exits 0. -/
theorem run_survives_failed_recovery {α : Type} (bl : List String)
    (pre post : List (String × LocOutcome α)) (name : String)
    (hpre : ∀ p ∈ pre, p.2 ≠ LocOutcome.errUnrecoverable)
    (hbl : bl.contains name = false) :
    test_list_buttons bl (pre ++ (name, LocOutcome.errUnrecoverable) :: post) =
      ⟨traverse bl pre, true, true, 0⟩ := by
  unfold test_list_buttons
  rw [traverse_break bl pre name post hpre hbl]

/-- Witness for the amended C6 at a concrete three-location run. -/
theorem run_survives_failed_recovery_w :
    test_list_buttons [] ([("A", LocOutcome.ok (1 : Nat))] ++
        ("B", LocOutcome.errUnrecoverable) :: [("C", LocOutcome.ok 2)]) =
      ⟨traverse [] [("A", LocOutcome.ok (1 : Nat))], true, true, 0⟩ :=
  run_survives_failed_recovery [] [("A", LocOutcome.ok 1)]
    [("C", LocOutcome.ok 2)] "B" (by decide) (by decide)

/-- Claim C10: `load_list` returns the empty set for a missing file and
otherwise the set of stripped non-blank lines; consequently a missing
blacklist behaves exactly like an empty one — `analyze_appointments` skips
no location, emitting an alert record for every in-window date of every
location. -/
theorem load_list_missing_is_empty_set :
    load_list none = [] ∧
    (∀ (lines : List String) (s : String),
      s ∈ load_list (some lines) ↔
        (∃ l ∈ lines, pyStrip l = s) ∧ s ≠ "") ∧
    (∀ (url : String) (w : Window)
      (snap : List (String × List (String × List String))),
      analyze url (load_list none) w snap = analyze url [] w snap ∧
      (analyze url (load_list none) w snap).1 =
        snap.flatMap fun p =>
          (p.2.filter fun q => is_alert_date w q.1).map fun q =>
            ⟨p.1, q.1, pySort q.2, url⟩) := by
  refine ⟨rfl, ?_, ?_⟩
  · intro lines s
    simp [load_list, List.mem_dedup, List.mem_filter, List.mem_map,
      decide_eq_true_eq]
  · intro url w snap
    refine ⟨rfl, ?_⟩
    rw [analyze_spec_eq]
    simp [alertsSpec, load_list]

/-- Witness for C10: a line with surrounding whitespace is stripped into
the loaded set. -/
theorem load_list_missing_is_empty_set_w :
    "Boston" ∈ load_list (some ["  Boston \n"]) :=
  (load_list_missing_is_empty_set.2.1 ["  Boston \n"] "Boston").mpr
    ⟨⟨"  Boston \n", by decide, by decide⟩, by decide⟩

end MassRMV
